import Mathlib

set_option maxRecDepth 8000

/-!
Verification of the aomail-app category/prompt/account-linking core against
its natural-language specification.  The definitions below are shallow
embeddings of the TypeScript source (Vue single-file components); the doc
comments point at the source functions they embed.
-/

namespace Aomail

/-! ### LLM settings page (PromptCustomization component) -/

/-- Source `interface LLMModel` (name + description). -/
structure LLMModel where
  name : String
  description : String
deriving DecidableEq, Repr

/-- Source `interface LLMProvider`. -/
structure LLMProvider where
  provider : String
  headquarters : String
  apiReference : String
  description : String
  models : List LLMModel
deriving DecidableEq, Repr

/-- First entry of the source `llmProviderOptions` array. -/
def googleProvider : LLMProvider :=
  { provider := "google"
    headquarters := "Mountain View, CA, USA"
    apiReference := "https://ai.google.dev/gemini-api/docs/models/gemini"
    description := "Google\x27s AI model provider"
    models :=
      [ { name := "gemini-1.5-pro"
          description := "Most capable model for highly complex tasks, with improved performance in coding, math, and reasoning. Supports text, images, and function calling." }
      , { name := "gemini-2.0-flash"
          description := "Latest model optimized for speed and efficiency. Best for real-time applications requiring fast responses while maintaining high quality output." } ] }

/-- Second entry of the source `llmProviderOptions` array. -/
def openaiProvider : LLMProvider :=
  { provider := "openai"
    headquarters := "San Francisco, CA, USA"
    apiReference := "https://platform.openai.com/docs/models#gpt-4o"
    description := "OpenAI\x27s AI model provider"
    models :=
      [ { name := "gpt-4o-mini"
          description := "Most capable multimodal model, optimized for both vision and language tasks. Excels at complex reasoning and creative generation." } ] }

/-- Third entry of the source `llmProviderOptions` array. -/
def anthropicProvider : LLMProvider :=
  { provider := "anthropic"
    headquarters := "San Francisco, CA, USA"
    apiReference := "https://docs.anthropic.com/en/docs/about-claude/models/all-models"
    description := "Anthropic\x27s AI model provider"
    models :=
      [ { name := "claude-3-5-haiku-latest"
          description := "Fastest and most cost-effective Claude model. Optimized for quick responses while maintaining high accuracy on common tasks." } ] }

/-- Fourth entry of the source `llmProviderOptions` array. -/
def mistralProvider : LLMProvider :=
  { provider := "mistral"
    headquarters := "Paris, France"
    apiReference := "https://docs.mistral.ai/getting-started/models/models_overview/"
    description := "Mistral\x27s AI model provider"
    models :=
      [ { name := "ministral-8b-latest"
          description := "Efficient 8B parameter model optimized for edge deployment. Excellent performance-to-size ratio for local inference." }
      , { name := "mistral-small-latest"
          description := "Compact but powerful model with strong reasoning capabilities. Ideal for production deployments requiring balance of speed and quality." } ] }

/-- Fifth entry of the source `llmProviderOptions` array. -/
def groqProvider : LLMProvider :=
  { provider := "groq"
    headquarters := "Mountain View, CA, USA"
    apiReference := "https://console.groq.com/docs/api-reference"
    description := "Groq\x27s AI model provider"
    models := [ { name := "llama3-8b-8192", description := "Most capable model from Meta AI" } ] }

/-- Sixth entry of the source `llmProviderOptions` array. -/
def deepseekProvider : LLMProvider :=
  { provider := "deepseek"
    headquarters := "Hangzhou, Zhejiang, China"
    apiReference := "https://deepseek.com/docs/api-reference"
    description := "DeepSeek\x27s AI model provider"
    models := [ { name := "deepseek-chat", description := "Default model for general purpose tasks" } ] }

/-- The source `llmProviderOptions` constant: the fixed provider catalog. -/
def llmProviderOptions : List LLMProvider :=
  [googleProvider, openaiProvider, anthropicProvider, mistralProvider, groqProvider, deepseekProvider]

/-- The reactive state of the PromptCustomization component that the claims
are about: `llmProvider`, `llmModel`, `promptInput`, `editingPrompt` refs.
`llmModel` is an `Option` because JavaScript indexing and `find` can produce
`undefined`. -/
structure PromptPageState where
  llmProvider : LLMProvider
  llmModel : Option LLMModel
  promptInput : String
  editingPrompt : Option String
deriving Repr

/-- Initial values of the refs: `llmModel = llmProviderOptions[0].models[0]`,
`llmProvider = llmProviderOptions[0]`, empty prompt input, no prompt selected. -/
def initialState : PromptPageState :=
  { llmProvider := googleProvider
    llmModel := googleProvider.models.head?
    promptInput := ""
    editingPrompt := none }

/-- Source `changeProvider` together with the multiselect `v-model` update
that precedes it: the selection sets `llmProvider` to the chosen option `p`,
then the `@select` handler sets `llmModel.value = llmProvider.value.models[0]`.
JavaScript `arr[0]` on an empty array is `undefined`, hence `head?`. -/
def changeProvider (p : LLMProvider) (s : PromptPageState) : PromptPageState :=
  { s with llmProvider := p, llmModel := p.models.head? }

/-- Source computed `llmModelOptions`, as a function of the provider it reads:
`llmProviderOptions.find((p) => p.provider === llmProvider.value.provider)`,
yielding that provider\x27s models or `[]`. -/
def llmModelOptionsOf (provider : LLMProvider) : List LLMModel :=
  match llmProviderOptions.find? (fun p => p.provider == provider.provider) with
  | some p => p.models
  | none => []

/-- Source computed `llmModelOptions` evaluated on the current state. -/
def llmModelOptions (s : PromptPageState) : List LLMModel :=
  llmModelOptionsOf s.llmProvider

/-- The `{llmProvider, llmModel}` fields of the server response consumed by
`fetchLLMSettings`. -/
structure LLMSettingsData where
  llmProvider : String
  llmModel : String
deriving DecidableEq, Repr

/-- The provider lookup in `fetchLLMSettings`:
`llmProviderOptions.find((p) => p.provider === data.llmProvider) || llmProviderOptions[0]`
(`llmProviderOptions[0]` is the google entry). -/
def fetchedProvider (data : LLMSettingsData) : LLMProvider :=
  (llmProviderOptions.find? (fun p => p.provider == data.llmProvider)).getD googleProvider

/-- Source `fetchLLMSettings` (success path), restricted to the state tracked
here: sets `llmProvider` from the server data (falling back to the first
catalog entry), then sets `llmModel` to
`llmModelOptions.value.find((m) => m.name === data.llmModel) || llmModelOptions.value[0]`,
where the computed `llmModelOptions` reads the just-updated provider.  The
`customizablePrompts` dictionary it also fills is not part of this state. -/
def fetchLLMSettings (data : LLMSettingsData) (s : PromptPageState) : PromptPageState :=
  { s with
    llmProvider := fetchedProvider data
    llmModel :=
      match (llmModelOptionsOf (fetchedProvider data)).find? (fun m => m.name == data.llmModel) with
      | some m => some m
      | none => (llmModelOptionsOf (fetchedProvider data)).head? }

/-- Source `resetToDefault` (lines 384-387): unconditionally sets
`llmModel = llmProviderOptions[0].models[0]`, `llmProvider = llmProviderOptions[0]`,
clears the prompt input and the selected prompt, then issues the
`resetAll: true` delete request. -/
def resetToDefault (s : PromptPageState) : PromptPageState :=
  { s with
    llmProvider := googleProvider
    llmModel := googleProvider.models.head?
    promptInput := ""
    editingPrompt := none }

/-- The invariant of the LLM settings: some model is selected and it belongs
to the selected provider\x27s model list. -/
def modelSelectedFromProvider (s : PromptPageState) : Prop :=
  ∃ m, s.llmModel = some m ∧ m ∈ s.llmProvider.models

/-! ### Prompt saving (savePrompt in the PromptCustomization component) -/

/-- Source `interface Prompt`: the stored template body and its declared
required variables.  The source field is named `variables`, a reserved word
in Lean, hence `requiredVariables` here (the spec\x27s name for the same set). -/
structure Prompt where
  prompt : String
  requiredVariables : List String
deriving DecidableEq, Repr

/-- JavaScript `String.prototype.includes`: substring containment. -/
def jsIncludes (s pattern : String) : Bool :=
  decide (pattern.data <:+: s.data)

/-- The `missingVariables` computation in `savePrompt`:
`promptData.requiredVariables.filter((v) => !promptInput.value.includes(\x7b...\x7d))`,
testing for the exact substring consisting of the variable name wrapped in
braces. -/
def missingVariables (vars : List String) (promptInput : String) : List String :=
  vars.filter (fun v => !(jsIncludes promptInput ("\x7b" ++ v ++ "\x7d")))

/-- Outcome of `savePrompt`: the error popups or the issued save request. -/
inductive SavePromptResult where
  | noPromptSelected
  | missingVariablesError (vars : List String)
  | saveRequest (body : String)
deriving DecidableEq, Repr

/-- Source `savePrompt`: bails out when no prompt is being edited; otherwise
computes the missing variables and reports them all (joined into one error
message) when any is missing; otherwise issues the save request with the
edited body.  `editingPrompt` here carries the looked-up
`customizablePrompts.value[editingPrompt.value]` record. -/
def savePrompt (editingPrompt : Option Prompt) (promptInput : String) : SavePromptResult :=
  match editingPrompt with
  | none => .noPromptSelected
  | some promptData =>
    let missing := missingVariables promptData.requiredVariables promptInput
    if missing.length > 0 then .missingVariablesError missing
    else .saveRequest promptInput

/-! ### Categories: navigation bar, creation and update modals -/

/-- Source `interface Category` (global/types). -/
structure Category where
  name : String
  description : String
deriving DecidableEq, Repr

/-- An interaction offered by the rendered category navigation bar
(Categories.vue). -/
inductive CategoryAction where
  | selectCategory (c : Category)
  | openUpdateModal (c : Category)
  | openNewCategoryModal
deriving DecidableEq, Repr

/-- The interactions the Categories.vue template renders for a category list:
for each category, selecting it is always offered, while the edit pencil that
calls `openUpdateModal` is rendered only under
`v-if="category.name !== DEFAULT_CATEGORY"`; the plus button opening the
new-category modal is always offered.  `defaultCategory` stands for the
`DEFAULT_CATEGORY` constant (imported from global/const, whose value is not
in the sources at hand). -/
def categoryNavActions (defaultCategory : String) (categories : List Category) :
    List CategoryAction :=
  (categories.map (fun c =>
    if c.name != defaultCategory then
      [CategoryAction.selectCategory c, CategoryAction.openUpdateModal c]
    else
      [CategoryAction.selectCategory c])).flatten ++ [CategoryAction.openNewCategoryModal]

/-- JavaScript `String.prototype.trim`: drops leading and trailing
whitespace. -/
def jsTrim (s : String) : String :=
  String.mk (((s.data.dropWhile Char.isWhitespace).reverse.dropWhile Char.isWhitespace).reverse)

/-- The reactive state of the update-category modal (UpdateCategoryModal
component in the sources): `props.isOpen`, `props.category`, and the two
editable fields `categoryName` / `categoryDescription`. -/
structure UpdateModalState where
  isOpen : Bool
  category : Option Category
  categoryName : String
  categoryDescription : String
deriving DecidableEq, Repr

/-- Opening the update modal for a category: the `watch` on `props.category`
(with `immediate: true`) copies the category\x27s name and description into the
editable fields. -/
def openUpdateModal (c : Category) : UpdateModalState :=
  { isOpen := true, category := some c, categoryName := c.name, categoryDescription := c.description }

/-- The `v-model` binding of the name input field: the user may retype the
category name while the modal is open. -/
def editCategoryName (s : UpdateModalState) (newName : String) : UpdateModalState :=
  { s with categoryName := newName }

/-- A request the category modals issue to the backend. -/
inductive CategoryRequest where
  | updateReq (newCategoryName description : String) (categoryName : Option String)
  | createReq (name description : String)
  | deleteReq (categoryName : String)
deriving DecidableEq, Repr

/-- Source `deleteCategory` in the update modal: issues
`deleteData("delete_category/", \x7b categoryName: categoryName.value \x7d)` —
note that it names the current content of the editable `categoryName` field,
not `props.category?.name`. -/
def deleteCategory (s : UpdateModalState) : CategoryRequest :=
  .deleteReq s.categoryName

/-- The `nbRules` / `nbEmails` pair returned by the `get_dependencies/`
endpoint. -/
structure Dependencies where
  nbRules : Nat
  nbEmails : Nat
deriving DecidableEq, Repr

/-- Outcome of clicking the delete button in the update modal. -/
inductive DeletionFlow where
  | notOpen
  | fetchError
  | immediateDelete (request : CategoryRequest)
  | confirmationModal (nbRules nbEmails : Nat)
deriving DecidableEq, Repr

/-- Source `openCategoryDeletionModal`: returns early if the modal is not
open; posts `get_dependencies/` for `props.category?.name`; on success,
deletes immediately when `nbRules === 0 && nbEmails === 0`, and otherwise
opens the confirmation modal carrying the two counts (the delete is then only
issued when the modal emits `deleteCategory`). -/
def openCategoryDeletionModal (s : UpdateModalState) (deps : Option Dependencies) :
    DeletionFlow :=
  if !s.isOpen then .notOpen
  else
    match deps with
    | none => .fetchError
    | some d =>
      if d.nbRules == 0 && d.nbEmails == 0 then .immediateDelete (deleteCategory s)
      else .confirmationModal d.nbRules d.nbEmails

/-- Validation outcome shared by `addCategory` (new-category modal) and
`updateCategory` (update modal): the same error ladder guards both. -/
inductive CategoryFormResult where
  | notOpen
  | fieldsMissing
  | nameTooLong
  | descriptionTooLong
  | submit (request : CategoryRequest)
deriving DecidableEq, Repr

/-- Source `addCategory` in NewCategoryModal.vue: rejects when the modal is
closed, when either trimmed field is empty, when the name exceeds 50
characters, or when the description exceeds 300 characters; otherwise posts
`create_categories/` with the entered name and description. -/
def addCategory (isOpen : Bool) (categoryName categoryDescription : String) :
    CategoryFormResult :=
  if !isOpen then .notOpen
  else if (jsTrim categoryName).isEmpty || (jsTrim categoryDescription).isEmpty then .fieldsMissing
  else if categoryName.length > 50 then .nameTooLong
  else if categoryDescription.length > 300 then .descriptionTooLong
  else .submit (.createReq categoryName categoryDescription)

/-- Source `updateCategory` in the update modal: the same validation ladder
as `addCategory`, then a `update_category/` put naming the edited fields as
the new name/description and `props.category?.name` as the category to
rename. -/
def updateCategory (s : UpdateModalState) : CategoryFormResult :=
  if !s.isOpen then .notOpen
  else if (jsTrim s.categoryName).isEmpty || (jsTrim s.categoryDescription).isEmpty then .fieldsMissing
  else if s.categoryName.length > 50 then .nameTooLong
  else if s.categoryDescription.length > 300 then .descriptionTooLong
  else .submit (.updateReq s.categoryName s.categoryDescription (s.category.map Category.name))

/-! ### Account linking (settings page `authorize` and the link endpoint) -/

/-- Source constant `MICROSOFT` (global/const). -/
def MICROSOFT : String := "microsoft"

/-- Source constant `GOOGLE` (global/const). -/
def GOOGLE : String := "google"

/-- Source constant `YAHOO` (global/const). -/
def YAHOO : String := "yahoo"

/-- Source constant `APPLE` (global/const). -/
def APPLE : String := "apple"

/-- The plan state injected as `userPlan`: the `isTrial` / `isActive` fields
supplied by the billing collaborator. -/
structure Plan where
  isTrial : Bool
  isActive : Bool
deriving DecidableEq, Repr

/-- The two plan-restriction denial reasons of `authorize`. -/
inductive DenyReason where
  | trialSingleLink
  | inactiveSubscription
deriving DecidableEq, Repr

/-- Outcome of `authorize`: an error popup (no OAuth flow started), or
`typeApi` set to the provider with the user-description modal (which starts
the OAuth flow) opened exactly for microsoft/google. -/
inductive AuthOutcome where
  | denied (reason : DenyReason)
  | proceed (typeApi : String) (descriptionModalOpened : Bool)
deriving DecidableEq, Repr

/-- Source `authorize` on the account settings page: when the injected
`userPlan` ref is present, a trial plan is denied with the single-link
message and then an inactive plan with the inactive-subscription message,
both returning before anything else happens; otherwise (including when no
plan is injected) `typeApi` is set to the provider and, for microsoft or
google, the user-description modal opening the OAuth flow is shown. -/
def authorize (userPlan : Option Plan) (provider : String) : AuthOutcome :=
  match userPlan with
  | some plan =>
    if plan.isTrial then .denied .trialSingleLink
    else if !plan.isActive then .denied .inactiveSubscription
    else .proceed provider (provider == MICROSOFT || provider == GOOGLE)
  | none => .proceed provider (provider == MICROSOFT || provider == GOOGLE)

/-- Source `LinkedMailbox` record of the Account Link Manager: the linked
address, its provider type, and its current token state. -/
structure LinkedMailbox where
  email : String
  providerType : String
  tokenState : Nat
deriving DecidableEq, Repr

/-- Modelled from the spec: the backend of the `user/social_api/link/`
endpoint (the Account Link Manager\x27s `exchangeCode`) is not among the
sources at hand — only its frontend caller `linkEmail` is.  Per spec §4.5,
`exchangeCode` is idempotent with respect to `consentRegrant = true`:
re-authorizing an already-linked mailbox updates its token state rather than
creating a duplicate `LinkedMailbox`, and a new mailbox is appended,
preserving uniqueness on `(email, providerType)`. -/
def exchangeCode (store : List LinkedMailbox) (email providerType : String)
    (token : Nat) (consentRegrant : Bool) : List LinkedMailbox :=
  if store.any (fun m => m.email == email && m.providerType == providerType) then
    store.map (fun m =>
      if m.email == email && m.providerType == providerType then
        { m with tokenState := token }
      else m)
  else
    store ++ [⟨email, providerType, token⟩]

/-- Number of `LinkedMailbox` entries for one `(email, providerType)` pair. -/
def countPair (store : List LinkedMailbox) (email providerType : String) : Nat :=
  (store.filter (fun m => m.email == email && m.providerType == providerType)).length

/-! ### Claim theorems and supporting lemmas -/

/-- Every provider name occurs once in the catalog: looking a catalog member
up by its own name finds exactly that member. -/
lemma catalog_find_name :
    ∀ q ∈ llmProviderOptions,
      llmProviderOptions.find? (fun p => p.provider == q.provider) = some q := by
  decide

/-- Every provider of the catalog has a nonempty model list. -/
lemma catalog_models_ne_nil : ∀ q ∈ llmProviderOptions, q.models ≠ [] := by
  decide

/-- C1: selecting any provider of the catalog resets `llmModel` to that
provider\x27s first catalog entry (`models[0]`); in particular selecting the
mistral provider yields the model named `ministral-8b-latest`. -/
theorem changeProvider_selects_first_model :
    (∀ (p : LLMProvider) (s : PromptPageState), p ∈ llmProviderOptions →
      (changeProvider p s).llmModel = p.models.head?) ∧
    (∀ s : PromptPageState,
      ((changeProvider mistralProvider s).llmModel).map LLMModel.name = some "ministral-8b-latest") :=
  ⟨fun _ _ _ => rfl, fun _ => rfl⟩

/-- Witness for C1 at the mistral provider and the initial state. -/
theorem changeProvider_selects_first_model_witness :
    mistralProvider ∈ llmProviderOptions ∧
      (changeProvider mistralProvider initialState).llmModel = mistralProvider.models.head? :=
  ⟨by decide, changeProvider_selects_first_model.1 mistralProvider initialState (by decide)⟩

/-- C6: after selecting a catalog provider, after fetching stored settings,
and after resetting to defaults, the selected model belongs to the selected
provider\x27s model list. -/
theorem llm_settings_model_invariant :
    (∀ (p : LLMProvider) (s : PromptPageState), p ∈ llmProviderOptions →
      modelSelectedFromProvider (changeProvider p s)) ∧
    (∀ (d : LLMSettingsData) (s : PromptPageState),
      modelSelectedFromProvider (fetchLLMSettings d s)) ∧
    (∀ s : PromptPageState, modelSelectedFromProvider (resetToDefault s)) := by
  refine ⟨?_, ?_, ?_⟩
  · intro p s hp
    have hne := catalog_models_ne_nil p hp
    cases hm : p.models with
    | nil => exact absurd hm hne
    | cons a t =>
      refine ⟨a, ?_, ?_⟩
      · show p.models.head? = some a
        rw [hm]
        rfl
      · show a ∈ p.models
        rw [hm]
        exact List.mem_cons_self a t
  · intro d s
    have hmem : fetchedProvider d ∈ llmProviderOptions := by
      unfold fetchedProvider
      cases hf : llmProviderOptions.find? (fun p => p.provider == d.llmProvider) with
      | none => simpa using (by decide : googleProvider ∈ llmProviderOptions)
      | some q => simpa using List.mem_of_find?_eq_some hf
    have hopts : llmModelOptionsOf (fetchedProvider d) = (fetchedProvider d).models := by
      unfold llmModelOptionsOf
      rw [catalog_find_name _ hmem]
    have hprov : (fetchLLMSettings d s).llmProvider = fetchedProvider d := rfl
    have hmodel : (fetchLLMSettings d s).llmModel =
        match ((fetchedProvider d).models).find? (fun m => m.name == d.llmModel) with
        | some m => some m
        | none => ((fetchedProvider d).models).head? := by
      show (match (llmModelOptionsOf (fetchedProvider d)).find? (fun m => m.name == d.llmModel) with
            | some m => some m
            | none => (llmModelOptionsOf (fetchedProvider d)).head?) = _
      rw [hopts]
    unfold modelSelectedFromProvider
    rw [hmodel, hprov]
    cases hfm : ((fetchedProvider d).models).find? (fun m => m.name == d.llmModel) with
    | some m => exact ⟨m, rfl, List.mem_of_find?_eq_some hfm⟩
    | none =>
      have hne := catalog_models_ne_nil _ hmem
      cases hm : (fetchedProvider d).models with
      | nil => exact absurd hm hne
      | cons a t => exact ⟨a, rfl, List.mem_cons_self a t⟩
  · intro s
    cases hm : googleProvider.models with
    | nil => exact absurd hm (by decide)
    | cons a t =>
      refine ⟨a, ?_, ?_⟩
      · show googleProvider.models.head? = some a
        rw [hm]
        rfl
      · show a ∈ googleProvider.models
        rw [hm]
        exact List.mem_cons_self a t

/-- Witness for C6 at the openai provider and the initial state. -/
theorem llm_settings_model_invariant_witness :
    openaiProvider ∈ llmProviderOptions ∧
      modelSelectedFromProvider (changeProvider openaiProvider initialState) :=
  ⟨by decide, llm_settings_model_invariant.1 openaiProvider initialState (by decide)⟩

/-- C8: `resetToDefault` (the resetAll handler) resets the selected provider
to the first provider of the catalog and the selected model to that
provider\x27s first model, besides clearing the prompt-editing state. -/
theorem resetToDefault_restores_default_llm_selection :
    ∀ s : PromptPageState,
      (resetToDefault s).llmProvider = googleProvider ∧
      llmProviderOptions.head? = some googleProvider ∧
      (resetToDefault s).llmModel = googleProvider.models.head? ∧
      (resetToDefault s).promptInput = "" ∧
      (resetToDefault s).editingPrompt = none :=
  fun _ => ⟨rfl, rfl, rfl, rfl, rfl⟩

/-- C3: saving a template issues the save request exactly when every declared
required variable appears in the body as the exact substring consisting of
the variable name wrapped in braces; and when it fails, the reported list
contains exactly the variables that are missing (all of them, not just the
first). -/
theorem savePrompt_requires_all_variables :
    ∀ (promptData : Prompt) (body : String),
      (savePrompt (some promptData) body = .saveRequest body ↔
        ∀ v ∈ promptData.requiredVariables, jsIncludes body ("\x7b" ++ v ++ "\x7d") = true) ∧
      (∀ vs, savePrompt (some promptData) body = .missingVariablesError vs →
        ∀ v, v ∈ vs ↔ v ∈ promptData.requiredVariables ∧ jsIncludes body ("\x7b" ++ v ++ "\x7d") = false) := by
  intro promptData body
  have hform : savePrompt (some promptData) body =
      if (missingVariables promptData.requiredVariables body).length > 0
      then .missingVariablesError (missingVariables promptData.requiredVariables body)
      else .saveRequest body := rfl
  have hchar : (missingVariables promptData.requiredVariables body = []) ↔
      ∀ v ∈ promptData.requiredVariables, jsIncludes body ("\x7b" ++ v ++ "\x7d") = true := by
    unfold missingVariables
    rw [List.filter_eq_nil_iff]
    constructor
    · intro h v hv
      simpa using h v hv
    · intro h v hv
      simp [h v hv]
  by_cases hpos : (missingVariables promptData.requiredVariables body).length > 0
  · rw [hform, if_pos hpos]
    constructor
    · constructor
      · intro h
        exact absurd h (by simp)
      · intro hall
        rw [← hchar] at hall
        rw [hall] at hpos
        simp at hpos
    · intro vs hvs v
      injection hvs with h
      subst h
      unfold missingVariables
      simp [List.mem_filter]
  · rw [hform, if_neg hpos]
    have hnil : missingVariables promptData.requiredVariables body = [] := by
      by_contra hne
      exact hpos (List.length_pos.mpr hne)
    constructor
    · constructor
      · intro _
        exact hchar.mp hnil
      · intro _
        rfl
    · intro vs hvs
      exact absurd hvs (by simp)

/-- Witness for C3: the spec\x27s example.  A template requiring subject and
sender saves with a body containing both placeholders, and with the body
missing the sender placeholder it fails reporting exactly the sender. -/
theorem savePrompt_requires_all_variables_witness :
    (savePrompt (some ⟨"", ["subject", "sender"]⟩) "Summarize \x7bsubject\x7d from \x7bsender\x7d"
        = .saveRequest "Summarize \x7bsubject\x7d from \x7bsender\x7d") ∧
    (savePrompt (some ⟨"", ["subject", "sender"]⟩) "Summarize \x7bsubject\x7d"
        = .missingVariablesError ["sender"]) ∧
    ("sender" ∈ ["sender"] ↔
      "sender" ∈ ["subject", "sender"] ∧
        jsIncludes "Summarize \x7bsubject\x7d" "\x7bsender\x7d" = false) :=
  ⟨(savePrompt_requires_all_variables ⟨"", ["subject", "sender"]⟩
      "Summarize \x7bsubject\x7d from \x7bsender\x7d").1.mpr (by decide),
   by decide,
   (savePrompt_requires_all_variables ⟨"", ["subject", "sender"]⟩
      "Summarize \x7bsubject\x7d").2 ["sender"] (by decide) "sender"⟩

/-- C2: with the update modal open, clicking delete deletes immediately
exactly when both dependency counts are zero; when either count is nonzero
the flow opens the confirmation modal carrying both counts instead of
deleting. -/
theorem delete_gated_by_dependency_counts :
    ∀ (s : UpdateModalState) (d : Dependencies), s.isOpen = true →
      ((∃ r, openCategoryDeletionModal s (some d) = .immediateDelete r) ↔
        d.nbRules = 0 ∧ d.nbEmails = 0) ∧
      (d.nbRules ≠ 0 ∨ d.nbEmails ≠ 0 →
        openCategoryDeletionModal s (some d) = .confirmationModal d.nbRules d.nbEmails) := by
  intro s d hopen
  have hred : openCategoryDeletionModal s (some d) =
      (if d.nbRules == 0 && d.nbEmails == 0 then .immediateDelete (deleteCategory s)
       else .confirmationModal d.nbRules d.nbEmails) := by
    unfold openCategoryDeletionModal
    rw [hopen]
    rfl
  by_cases h : (d.nbRules == 0 && d.nbEmails == 0) = true
  · have hz : d.nbRules = 0 ∧ d.nbEmails = 0 := by simpa using h
    rw [hred, if_pos h]
    refine ⟨⟨fun _ => hz, fun _ => ⟨deleteCategory s, rfl⟩⟩, ?_⟩
    rintro (hne | hne)
    · exact absurd hz.1 hne
    · exact absurd hz.2 hne
  · have hnz : ¬(d.nbRules = 0 ∧ d.nbEmails = 0) := by simpa using h
    rw [hred, if_neg h]
    refine ⟨⟨?_, fun hz => absurd hz hnz⟩, fun _ => rfl⟩
    rintro ⟨r, hr⟩
    simp at hr

/-- Witness for C2: a category with two rules and three e-mails attached is
not deleted immediately. -/
theorem delete_gated_by_dependency_counts_witness :
    (openUpdateModal ⟨"Work", "w"⟩).isOpen = true ∧
      openCategoryDeletionModal (openUpdateModal ⟨"Work", "w"⟩) (some ⟨2, 3⟩) =
        .confirmationModal 2 3 :=
  ⟨rfl, (delete_gated_by_dependency_counts (openUpdateModal ⟨"Work", "w"⟩) ⟨2, 3⟩ rfl).2
    (Or.inl (by decide))⟩

/-- C4: the navigation bar never offers the update modal for the Default
Category, but `deleteCategory` names the editable `categoryName` field rather
than `props.category?.name`, so opening the modal for another category and
retyping the Default Category\x27s name issues a delete request naming the
Default Category ("Default" stands for the `DEFAULT_CATEGORY` constant,
"Work" for any other category with no dependents). -/
theorem default_category_delete_request_issued :
    (CategoryAction.openUpdateModal ⟨"Default", "d"⟩ ∉
        categoryNavActions "Default" [⟨"Default", "d"⟩, ⟨"Work", "w"⟩]) ∧
    (CategoryAction.openUpdateModal ⟨"Work", "w"⟩ ∈
        categoryNavActions "Default" [⟨"Default", "d"⟩, ⟨"Work", "w"⟩]) ∧
    (openCategoryDeletionModal
        (editCategoryName (openUpdateModal ⟨"Work", "w"⟩) "Default") (some ⟨0, 0⟩) =
      .immediateDelete (.deleteReq "Default")) := by
  decide

/-- C7: with both trimmed fields nonempty, creating and renaming submit
exactly when the name has at most 50 characters and the description at most
300; a longer name raises the name-length error, a longer description the
description-length error. -/
theorem category_length_validation :
    ∀ (name description : String) (c : Option Category),
      (jsTrim name).isEmpty = false → (jsTrim description).isEmpty = false →
      (addCategory true name description = .submit (.createReq name description) ↔
        name.length ≤ 50 ∧ description.length ≤ 300) ∧
      (addCategory true name description = .nameTooLong ↔ name.length > 50) ∧
      (addCategory true name description = .descriptionTooLong ↔
        name.length ≤ 50 ∧ description.length > 300) ∧
      (updateCategory ⟨true, c, name, description⟩ =
          .submit (.updateReq name description (c.map Category.name)) ↔
        name.length ≤ 50 ∧ description.length ≤ 300) := by
  intro name description c hn hd
  have h1 : ((jsTrim name).isEmpty || (jsTrim description).isEmpty) = false := by
    rw [hn, hd]
    rfl
  have haform : addCategory true name description =
      (if name.length > 50 then .nameTooLong
       else if description.length > 300 then .descriptionTooLong
       else .submit (.createReq name description)) := by
    unfold addCategory
    simp [h1]
  have huform : updateCategory ⟨true, c, name, description⟩ =
      (if name.length > 50 then .nameTooLong
       else if description.length > 300 then .descriptionTooLong
       else .submit (.updateReq name description (c.map Category.name))) := by
    unfold updateCategory
    simp [h1]
  rw [haform, huform]
  by_cases h50 : name.length > 50
  · refine ⟨?_, ?_, ?_, ?_⟩ <;> simp [h50]
  · by_cases h300 : description.length > 300
    · refine ⟨?_, ?_, ?_, ?_⟩ <;> simp [h50, h300] <;> omega
    · refine ⟨?_, ?_, ?_, ?_⟩ <;> simp [h50, h300] <;> omega

/-- Witness for C7: a 50-character name and a 300-character description are
accepted by both forms. -/
theorem category_length_validation_witness :
    (jsTrim (String.mk (List.replicate 50 'a'))).isEmpty = false ∧
    (jsTrim (String.mk (List.replicate 300 'b'))).isEmpty = false ∧
    addCategory true (String.mk (List.replicate 50 'a')) (String.mk (List.replicate 300 'b')) =
      .submit (.createReq (String.mk (List.replicate 50 'a')) (String.mk (List.replicate 300 'b'))) ∧
    updateCategory
        ⟨true, some ⟨"Old", "o"⟩, String.mk (List.replicate 50 'a'), String.mk (List.replicate 300 'b')⟩ =
      .submit (.updateReq (String.mk (List.replicate 50 'a')) (String.mk (List.replicate 300 'b'))
        (some "Old")) := by
  refine ⟨by decide, by decide, ?_, ?_⟩
  · exact (category_length_validation (String.mk (List.replicate 50 'a'))
      (String.mk (List.replicate 300 'b')) (some ⟨"Old", "o"⟩) (by decide) (by decide)).1.mpr
      (by decide)
  · exact (category_length_validation (String.mk (List.replicate 50 'a'))
      (String.mk (List.replicate 300 'b')) (some ⟨"Old", "o"⟩) (by decide) (by decide)).2.2.2.mpr
      (by decide)

/-- One `exchangeCode` call leaves exactly one entry for the exchanged pair,
provided the uniqueness invariant held before. -/
lemma exchangeCode_countPair (store : List LinkedMailbox) (email providerType : String)
    (token : Nat) (cr : Bool) (h : countPair store email providerType ≤ 1) :
    countPair (exchangeCode store email providerType token cr) email providerType = 1 := by
  unfold countPair at h ⊢
  unfold exchangeCode
  by_cases hany : store.any (fun m => m.email == email && m.providerType == providerType) = true
  · rw [if_pos hany]
    have hlen : ∀ l : List LinkedMailbox,
        ((l.map (fun m =>
            if m.email == email && m.providerType == providerType then
              { m with tokenState := token }
            else m)).filter
          (fun m => m.email == email && m.providerType == providerType)).length =
        (l.filter (fun m => m.email == email && m.providerType == providerType)).length := by
      intro l
      induction l with
      | nil => rfl
      | cons a t ih =>
        by_cases ha : (a.email == email && a.providerType == providerType) = true
        · simp only [List.map_cons, List.filter_cons, if_pos ha]
          simp only [List.length_cons]
          rw [ih]
        · simp only [List.map_cons, List.filter_cons, if_neg ha]
          exact ih
    rw [hlen]
    have hpos : 0 < (store.filter
        (fun m => m.email == email && m.providerType == providerType)).length := by
      rcases List.any_eq_true.mp hany with ⟨m, hm, hpm⟩
      exact List.length_pos.mpr (fun hnil =>
        (List.filter_eq_nil_iff.mp hnil) m hm (by simp [hpm]))
    omega
  · rw [if_neg hany]
    have h0 : store.filter (fun m => m.email == email && m.providerType == providerType) = [] := by
      rw [List.filter_eq_nil_iff]
      intro a ha hpa
      exact hany (List.any_eq_true.mpr ⟨a, ha, hpa⟩)
    rw [List.filter_append, h0]
    simp

/-- C5: whenever a plan is supplied, `authorize` is gated on it first: a
trial plan is denied with the trial-single-link reason, a non-trial inactive
plan with the inactive-subscription reason, and in either denied case no
linking flow is started for any provider. -/
theorem authorize_plan_gate :
    ∀ (provider : String) (plan : Plan),
      (plan.isTrial = true → authorize (some plan) provider = .denied .trialSingleLink) ∧
      (plan.isTrial = false → plan.isActive = false →
        authorize (some plan) provider = .denied .inactiveSubscription) ∧
      ((plan.isTrial = true ∨ plan.isActive = false) →
        ∀ p b, authorize (some plan) provider ≠ .proceed p b) := by
  intro provider plan
  obtain ⟨t, a⟩ := plan
  cases t <;> cases a <;> simp [authorize]

/-- Witness for C5: a trial plan and an inactive plan are both denied with
their respective reasons. -/
theorem authorize_plan_gate_witness :
    ((Plan.mk true true).isTrial = true ∧
      authorize (some (Plan.mk true true)) GOOGLE = .denied .trialSingleLink) ∧
    ((Plan.mk false false).isTrial = false ∧ (Plan.mk false false).isActive = false ∧
      authorize (some (Plan.mk false false)) MICROSOFT = .denied .inactiveSubscription) :=
  ⟨⟨rfl, (authorize_plan_gate GOOGLE (Plan.mk true true)).1 rfl⟩,
   ⟨rfl, rfl, (authorize_plan_gate MICROSOFT (Plan.mk false false)).2.1 rfl rfl⟩⟩

/-- C10: when no plan is injected (`userPlan` undefined), `authorize` skips
the plan restriction check entirely and proceeds to the linking flow; no
denial can be produced. -/
theorem authorize_without_plan_skips_check :
    ∀ provider : String,
      authorize none provider =
        .proceed provider (provider == MICROSOFT || provider == GOOGLE) ∧
      ∀ r, authorize none provider ≠ .denied r := by
  intro provider
  refine ⟨rfl, ?_⟩
  intro r h
  simp [authorize] at h

/-- Witness for C10: with no plan, linking google proceeds (opening the
description modal) and in particular the trial denial is not raised. -/
theorem authorize_without_plan_skips_check_witness :
    authorize none GOOGLE = .proceed GOOGLE true ∧
      authorize none GOOGLE ≠ .denied .trialSingleLink :=
  ⟨by
    rw [(authorize_without_plan_skips_check GOOGLE).1]
    rfl,
   (authorize_without_plan_skips_check GOOGLE).2 .trialSingleLink⟩

/-- C9: starting from a store satisfying the uniqueness invariant, two
consent-regrant `exchangeCode` calls for the same mailbox leave exactly one
`LinkedMailbox` entry for that `(email, providerType)` pair. -/
theorem exchangeCode_consentRegrant_idempotent :
    ∀ (store : List LinkedMailbox) (email providerType : String) (t1 t2 : Nat),
      countPair store email providerType ≤ 1 →
      countPair
        (exchangeCode (exchangeCode store email providerType t1 true)
          email providerType t2 true) email providerType = 1 := by
  intro store email providerType t1 t2 h
  have h1 := exchangeCode_countPair store email providerType t1 true h
  exact exchangeCode_countPair _ email providerType t2 true (le_of_eq h1)

/-- Witness for C9: re-linking an already-linked gmail mailbox twice keeps a
single entry for it. -/
theorem exchangeCode_consentRegrant_idempotent_witness :
    countPair [⟨"user@gmail.com", "google", 0⟩] "user@gmail.com" "google" ≤ 1 ∧
    countPair
      (exchangeCode
        (exchangeCode [⟨"user@gmail.com", "google", 0⟩] "user@gmail.com" "google" 1 true)
        "user@gmail.com" "google" 2 true) "user@gmail.com" "google" = 1 :=
  ⟨by decide,
   exchangeCode_consentRegrant_idempotent [⟨"user@gmail.com", "google", 0⟩]
     "user@gmail.com" "google" 1 2 (by decide)⟩

end Aomail

